import Mathlib

/-!
Verification of the SICP protocol engine and per-device controller layer.

The repository contains three historical variants of the same service:
  * `sicp_client/`   (files `protocol.py`, `manager.py`, `tablet.py`, `client.py`)
  * `sicp_service/`  (files `sicp.py`, `manager.py`)
  * `src/sicp/`      (files `protocol.py`, `transport.py`, `client.py`, `tablet.py`)
Each variant is embedded in its own namespace.  Bytes are modelled as `Nat`
(values read from a socket are 0..255; the theorems quantify over arbitrary
naturals, a superset).  Network I/O is modelled by passing the outcome of each
transport exchange explicitly; exceptions are modelled with `Except` / sum
types; wall-clock timestamps are threaded as an abstract `now : Nat`.
-/

deriving instance DecidableEq for Except

/-- XOR-fold checksum, as implemented identically by `_checksum` in
`sicp_client/protocol.py`, `sicp_service/sicp.py` and `checksum` in
`src/sicp/protocol.py`: `value = 0; for byte in frame: value ^= byte`. -/
def checksum (frame : List Nat) : Nat :=
  frame.foldl (fun value byte => value ^^^ byte) 0

/-- Outcome of one complete transport exchange (a `send_with_retries` call
seen from the layer above): either the reply bytes, or a connection-level
failure carrying its message. -/
inductive NetResult where
  | ok (reply : List Nat)
  | connFail (msg : String)
  deriving DecidableEq

/-- One `sock.recv` event inside the reply-reading loop: a data chunk (an
empty chunk means the peer closed the connection) or a read timeout. -/
inductive RecvEvent where
  | data (bs : List Nat)
  | timeout
  deriving DecidableEq

/-- Outcome of one `send_frame` attempt inside a retry loop.  The loops catch
only `ConnectionError`; any other exception escapes the `try` uncaught, which
is kept as a separate constructor. -/
inductive AttemptResult where
  | ok (reply : List Nat)
  | connError (msg : String)
  | otherError (msg : String)
  deriving DecidableEq

/-- Exception leaving a retry loop. -/
inductive RunErr where
  | connectionError (msg : String)
  | otherError (msg : String)
  | assertionError
  deriving DecidableEq

/-- Observable effects of one retry-loop execution: the returned value or the
raised exception, the number of `send_frame` attempts actually made, and the
number of `time.sleep(retry_delay)` calls performed. -/
structure RunResult where
  result : Except RunErr (List Nat)
  attemptsMade : Nat
  sleeps : Nat
  deriving DecidableEq

namespace ClientProtocol
/-! Embedding of `sicp_client/protocol.py`. -/

def FRAME_SIZE : Nat := 0x09
def CONTROL_BYTE : Nat := 0x01
def GROUP_BYTE : Nat := 0x00
def CMD_SET : Nat := 0xF3
def CMD_GET : Nat := 0xF4
def CMD_POWER_SET : Nat := 0x18
def CMD_POWER_GET : Nat := 0x19

structure LedState where
  is_on : Bool
  red : Nat
  green : Nat
  blue : Nat
  deriving DecidableEq

structure PowerState where
  is_on : Bool
  deriving DecidableEq

/-- The exceptions this module raises: `ProtocolError`, the built-in
`ConnectionError` (re-raised from the transport), and `ValueError` from
`_clamp_color`. -/
inductive Err where
  | protocolError (msg : String)
  | connectionError (msg : String)
  | valueError
  deriving DecidableEq

/-- `_clamp_color`: raises `ValueError` unless `0 <= value <= 255` (the lower
bound is automatic for `Nat`). -/
def clamp_color (value : Nat) : Option Nat :=
  if value ≤ 255 then some value else none

/-- `build_set_frame(is_on, red, green, blue)`: colors are forced to 0 when
`is_on` is false, clamped, then the checksum of the first eight bytes is
appended. -/
def build_set_frame (is_on : Bool) (red green blue : Nat) : Option (List Nat) :=
  match clamp_color (if is_on then red else 0),
        clamp_color (if is_on then green else 0),
        clamp_color (if is_on then blue else 0) with
  | some r, some g, some b =>
      let parts : List Nat :=
        [FRAME_SIZE, CONTROL_BYTE, GROUP_BYTE, CMD_SET,
         if is_on then 0x01 else 0x00, r, g, b]
      some (parts ++ [checksum parts])
  | _, _, _ => none

/-- `build_get_frame()`. -/
def build_get_frame : List Nat :=
  let parts : List Nat :=
    [FRAME_SIZE, CONTROL_BYTE, GROUP_BYTE, CMD_GET, 0x00, 0x00, 0x00, 0x00]
  parts ++ [checksum parts]

/-- `build_power_frame(is_on)`. -/
def build_power_frame (is_on : Bool) : List Nat :=
  let parts : List Nat :=
    [0x06, 0x00, 0x00, CMD_POWER_SET, if is_on then 0x02 else 0x01]
  parts ++ [checksum parts]

/-- `build_power_status_frame()`. -/
def build_power_status_frame : List Nat :=
  let parts : List Nat := [0x06, 0x00, 0x00, CMD_POWER_GET, 0x00]
  parts ++ [checksum parts]

/-- `_parse_led_state(frame)`: requires at least 8 bytes and a `CMD_GET`
command echo at index 3; the reported `is_on` is the flag byte AND
`any((red, green, blue))`. -/
def parse_led_state (frame : List Nat) : Except String LedState :=
  if frame.length < 8 then
    .error "Unexpected LED state frame length"
  else if frame.getD 3 0 ≠ CMD_GET then
    .error "Unexpected command byte in LED frame"
  else
    let on_flag := frame.getD 4 0 == 0x01
    let red := frame.getD 5 0
    let green := frame.getD 6 0
    let blue := frame.getD 7 0
    .ok { is_on := on_flag && (red != 0 || green != 0 || blue != 0),
          red := red, green := green, blue := blue }

/-- `_parse_power_state(frame)`. -/
def parse_power_state (frame : List Nat) : Except String PowerState :=
  if frame.length < 5 then
    .error "Unexpected power state frame length"
  else if frame.getD 3 0 ≠ CMD_POWER_GET then
    .error "Unexpected command byte in power frame"
  else if frame.getD 4 0 ≠ 0x01 ∧ frame.getD 4 0 ≠ 0x02 then
    .error "Unexpected power payload byte"
  else
    .ok { is_on := frame.getD 4 0 == 0x02 }

/-- The reply-collection loop of `send_frame` (lines 192-202): starting from
`received` (initially the length byte) it keeps appending `recv` chunks until
`expected` bytes are collected, a read times out, or the peer closes (empty
chunk); every exit returns the bytes collected so far.  The trace of `recv`
results is finite; an exhausted trace also returns the collected bytes (the
runs examined below always end inside the trace). -/
def read_loop (expected : Nat) : List Nat → List RecvEvent → List Nat
  | received, [] => received
  | received, ev :: rest =>
    if received.length < expected then
      match ev with
      | .timeout => received
      | .data [] => received
      | .data (b :: bs) => read_loop expected (received ++ b :: bs) rest
    else received

/-- The reply side of `send_frame` with `expect_reply=True`: `first` is the
result of the initial `recv(1)` (empty when the connection closed without
data), which doubles as the declared total length. -/
def read_reply (first : List Nat) (events : List RecvEvent) : List Nat :=
  if first = [] then []
  else read_loop (first.getD 0 0) first events

/-- The retry loop of `send_with_retries` (lines 220-241): `outcome i` is what
the i-th `send_frame` call does (1-based), `rem` the remaining iterations of
`for attempt in range(1, attempts + 1)`, `last_error` the saved
`ConnectionError`.  `rem = 0` is the fall-through after the loop, which
re-raises the saved error (the `assert last_error is not None` can never fire
since `attempts >= 1`). -/
def run_from (outcome : Nat → AttemptResult) (retry_delay : ℚ) (attempts : Nat) :
    Nat → Nat → Option String → Nat → Nat → RunResult
  | 0, _, last_error, made, sleeps =>
      match last_error with
      | some m => ⟨.error (.connectionError m), made, sleeps⟩
      | none => ⟨.error .assertionError, made, sleeps⟩
  | rem + 1, attempt, _, made, sleeps =>
      match outcome attempt with
      | .ok reply => ⟨.ok reply, made + 1, sleeps⟩
      | .otherError m => ⟨.error (.otherError m), made + 1, sleeps⟩
      | .connError m =>
          if attempt == attempts then
            run_from outcome retry_delay attempts 0 (attempt + 1) (some m) (made + 1) sleeps
          else
            run_from outcome retry_delay attempts rem (attempt + 1) (some m) (made + 1)
              (if 0 < retry_delay then sleeps + 1 else sleeps)

/-- `send_with_retries(..., retries, retry_delay)`:
`attempts = max(1, retries + 1)` tries of `send_frame`. -/
def send_with_retries (outcome : Nat → AttemptResult) (retries : Nat)
    (retry_delay : ℚ) : RunResult :=
  let attempts := max 1 (retries + 1)
  run_from outcome retry_delay attempts attempts 1 none 0 0

/-- `query_led_state`: GET frame exchange, empty reply is a `ProtocolError`,
then `_parse_led_state` (whose failures are `ProtocolError`s). -/
def query_led_state (getReply : NetResult) : Except Err LedState :=
  match getReply with
  | .connFail m => .error (.connectionError m)
  | .ok reply =>
    if reply.length = 0 then .error (.protocolError "Empty LED state reply")
    else
      match parse_led_state reply with
      | .error m => .error (.protocolError m)
      | .ok st => .ok st

/-- `query_power_state`. -/
def query_power_state (getReply : NetResult) : Except Err PowerState :=
  match getReply with
  | .connFail m => .error (.connectionError m)
  | .ok reply =>
    if reply.length = 0 then .error (.protocolError "Empty power state reply")
    else
      match parse_power_state reply with
      | .error m => .error (.protocolError m)
      | .ok st => .ok st

/-- `set_led_state` (lines 290-325): build and fire the SET frame
(`expect_reply=False`), query back the LED state, and raise
`ProtocolError("LED confirmation mismatch")` unless the confirmed values
equal the requested ones (colors compared against 0 when `is_on` is false).
`setSend` / `getReply` are the outcomes of the two transport exchanges. -/
def set_led_state (setSend getReply : NetResult) (is_on : Bool)
    (red green blue : Nat) : Except Err LedState :=
  match build_set_frame is_on red green blue with
  | none => .error .valueError
  | some _frame =>
    match setSend with
    | .connFail m => .error (.connectionError m)
    | .ok _ =>
      match query_led_state getReply with
      | .error e => .error e
      | .ok confirmation =>
        if confirmation.is_on != is_on
            || confirmation.red != (if is_on then red else 0)
            || confirmation.green != (if is_on then green else 0)
            || confirmation.blue != (if is_on then blue else 0) then
          .error (.protocolError "LED confirmation mismatch")
        else .ok confirmation

/-- `set_power_state` (lines 328-356): fire the power frame, query back the
power state, and raise `ProtocolError("Power confirmation mismatch")` when
the confirmed power differs from the requested one. -/
def set_power_state (setSend getReply : NetResult) (is_on : Bool) :
    Except Err PowerState :=
  match setSend with
  | .connFail m => .error (.connectionError m)
  | .ok _ =>
    match query_power_state getReply with
    | .error e => .error e
    | .ok confirmation =>
      if confirmation.is_on != is_on then
        .error (.protocolError "Power confirmation mismatch")
      else .ok confirmation

end ClientProtocol

namespace SrcTransport
/-! Embedding of `src/sicp/transport.py`.  Its `send_frame` reply loop
(lines 43-52) is character-for-character the one in
`sicp_client/protocol.py`; its `send_with_retries` (lines 60-91) differs only
in re-raising the caught `ConnectionError` in place (bare `raise`) instead of
saving it, and in calling an observability-only `retry_hook` before
sleeping. -/

/-- Reply-collection loop of `send_frame` (lines 43-52), identical to
`ClientProtocol.read_loop`. -/
def read_loop (expected : Nat) : List Nat → List RecvEvent → List Nat
  | received, [] => received
  | received, ev :: rest =>
    if received.length < expected then
      match ev with
      | .timeout => received
      | .data [] => received
      | .data (b :: bs) => read_loop expected (received ++ b :: bs) rest
    else received

/-- Retry loop of `send_with_retries` (lines 71-91); `rem = 0` is the
fall-through `return b""` after the loop (unreachable for `attempts >= 1`). -/
def run_from (outcome : Nat → AttemptResult) (retry_delay : ℚ) (attempts : Nat) :
    Nat → Nat → Nat → Nat → RunResult
  | 0, _, made, sleeps => ⟨.ok [], made, sleeps⟩
  | rem + 1, attempt, made, sleeps =>
      match outcome attempt with
      | .ok reply => ⟨.ok reply, made + 1, sleeps⟩
      | .otherError m => ⟨.error (.otherError m), made + 1, sleeps⟩
      | .connError m =>
          if attempt == attempts then ⟨.error (.connectionError m), made + 1, sleeps⟩
          else
            run_from outcome retry_delay attempts rem (attempt + 1) (made + 1)
              (if 0 < retry_delay then sleeps + 1 else sleeps)

/-- `send_with_retries(..., retries, retry_delay)` of `src/sicp/transport.py`. -/
def send_with_retries (outcome : Nat → AttemptResult) (retries : Nat)
    (retry_delay : ℚ) : RunResult :=
  let attempts := max 1 (retries + 1)
  run_from outcome retry_delay attempts attempts 1 0 0

end SrcTransport

namespace Service
/-! Embedding of `sicp_service/sicp.py` and `sicp_service/manager.py`. -/

def FRAME_SIZE : Nat := 0x09
def CONTROL_BYTE : Nat := 0x01
def GROUP_BYTE : Nat := 0x00
def CMD_SET : Nat := 0xF3
def CMD_GET : Nat := 0xF4
def CMD_POWER_STATE : Nat := 0x19

structure LEDStatus where
  is_on : Bool
  red : Nat
  green : Nat
  blue : Nat
  deriving DecidableEq

/-- The exceptions of this variant: `SICPError` (transport), its subclass
`SICPValidationError` (parsing), and `ValueError` from `_clamp_color`. -/
inductive Err where
  | sicpError (msg : String)
  | validationError (msg : String)
  | valueError
  deriving DecidableEq

/-- `str(exc)` as used by `_handle_failure`. -/
def err_str : Err → String
  | .sicpError m => m
  | .validationError m => m
  | .valueError => "color values must be in range 0-255"

def clamp_color (value : Nat) : Option Nat :=
  if value ≤ 255 then some value else none

/-- `build_set_frame` (lines 63-78), identical to the `sicp_client`
variant. -/
def build_set_frame (is_on : Bool) (red green blue : Nat) : Option (List Nat) :=
  match clamp_color (if is_on then red else 0),
        clamp_color (if is_on then green else 0),
        clamp_color (if is_on then blue else 0) with
  | some r, some g, some b =>
      let parts : List Nat :=
        [FRAME_SIZE, CONTROL_BYTE, GROUP_BYTE, CMD_SET,
         if is_on then 0x01 else 0x00, r, g, b]
      some (parts ++ [checksum parts])
  | _, _, _ => none

/-- `build_get_frame` (lines 81-93). -/
def build_get_frame : List Nat :=
  let parts : List Nat :=
    [FRAME_SIZE, CONTROL_BYTE, GROUP_BYTE, CMD_GET, 0x00, 0x00, 0x00, 0x00]
  parts ++ [checksum parts]

/-- `build_power_frame` (lines 96-105): note this variant uses
`CONTROL_BYTE`/`GROUP_BYTE` and command `0x19`. -/
def build_power_frame (is_on : Bool) : List Nat :=
  let parts : List Nat :=
    [0x06, CONTROL_BYTE, GROUP_BYTE, CMD_POWER_STATE, if is_on then 0x02 else 0x01]
  parts ++ [checksum parts]

/-- `build_power_query_frame` (lines 108-116): a 5-byte frame. -/
def build_power_query_frame : List Nat :=
  let parts : List Nat := [0x05, CONTROL_BYTE, GROUP_BYTE, CMD_POWER_STATE]
  parts ++ [checksum parts]

/-- `parse_led_status` (lines 119-126): accepts a command echo of either
`CMD_SET` or `CMD_GET`; the reported `is_on` is just `frame[4] == 0x01` (no
color guard in this variant). -/
def parse_led_status (frame : List Nat) : Except String LEDStatus :=
  if frame.length < 8 then
    .error "Frame too short to parse LED status"
  else if !(frame.getD 3 0 == CMD_SET || frame.getD 3 0 == CMD_GET) then
    .error "Unexpected command byte in reply"
  else
    .ok { is_on := frame.getD 4 0 == 0x01, red := frame.getD 5 0,
          green := frame.getD 6 0, blue := frame.getD 7 0 }

/-- `parse_power_reply` (lines 129-141). -/
def parse_power_reply (frame : List Nat) : Option Bool :=
  if frame.length < 5 then none
  else if frame.getD 3 0 ≠ CMD_POWER_STATE then none
  else if frame.length < 6 then none
  else if frame.getD 4 0 = 0x02 then some true
  else if frame.getD 4 0 = 0x01 then some false
  else none

/-- The reply-collection loop of `SICPClient._receive_reply` (lines 187-198):
unlike the other two variants it RAISES on a premature close, and a read
timeout (`socket.timeout`, an `OSError`) propagates and is converted by
`send_frame` into `SICPError`; the exact message of that conversion is
abbreviated here.  An exhausted event trace models the loop exiting with the
bytes collected (the runs examined below always end inside the trace). -/
def receive_loop (expected : Nat) : List Nat → List RecvEvent → Except String (List Nat)
  | received, [] => .ok received
  | received, ev :: rest =>
    if received.length < expected then
      match ev with
      | .timeout => .error "Unable to reach host: timed out"
      | .data [] => .error "Socket closed before full reply was received"
      | .data (b :: bs) => receive_loop expected (received ++ b :: bs) rest
    else .ok received

/-- `SICPClient._receive_reply`: the initial `recv(1)` result `first` is
empty when the connection closed without data, which also raises. -/
def receive_reply (first : List Nat) (events : List RecvEvent) : Except String (List Nat) :=
  if first = [] then .error "Connection closed before reply received"
  else receive_loop (first.getD 0 0) first events

/-- `SICPClient.set_led` (lines 230-265): builds and sends the SET frame
(`expect_reply=True`); when the reply looks like an LED frame it is parsed,
otherwise the requested (clamped) values are assumed.  `send` is the outcome
of the `_send_with_retries` exchange. -/
def client_set_led (send : NetResult) (is_on : Bool) (red green blue : Nat) :
    Except Err LEDStatus :=
  match build_set_frame is_on red green blue with
  | none => .error .valueError
  | some frame =>
    match send with
    | .connFail m => .error (.sicpError m)
    | .ok reply =>
      if 8 ≤ reply.length && (reply.getD 3 0 == CMD_SET || reply.getD 3 0 == CMD_GET) then
        match parse_led_status reply with
        | .error m => .error (.validationError m)
        | .ok status => .ok status
      else
        .ok { is_on := is_on, red := frame.getD 5 0, green := frame.getD 6 0,
              blue := frame.getD 7 0 }

/-- `SICPClient.get_led_status` (lines 267-283). -/
def client_get_led_status (send : NetResult) : Except Err LEDStatus :=
  match send with
  | .connFail m => .error (.sicpError m)
  | .ok reply =>
    match parse_led_status reply with
    | .error m => .error (.validationError m)
    | .ok status => .ok status

/-- `manager.TabletState` dataclass (defaults included); `last_updated` is an
abstract timestamp. -/
structure TabletState where
  available : Bool := false
  led_on : Bool := false
  red : Nat := 0
  green : Nat := 0
  blue : Nat := 0
  preset : Option String := none
  power_on : Option Bool := none
  last_error : Option String := none
  last_updated : Option Nat := none
  deriving DecidableEq

structure LedPreset where
  identifier : String
  red : Nat
  green : Nat
  blue : Nat

/-- `presets._PRESETS` (labels omitted as unused by `match_rgb`). -/
def PRESETS : List LedPreset :=
  [⟨"white", 255, 255, 255⟩, ⟨"red", 255, 0, 0⟩, ⟨"green", 0, 255, 0⟩,
   ⟨"blue", 0, 0, 255⟩, ⟨"cyan", 0, 255, 255⟩, ⟨"magenta", 255, 0, 255⟩,
   ⟨"yellow", 255, 255, 0⟩, ⟨"off", 0, 0, 0⟩]

/-- `presets.match_rgb`: identifier of the first preset with the given
components, else `None`. -/
def match_rgb (red green blue : Nat) : Option String :=
  (PRESETS.find? (fun p => p.red == red && p.green == green && p.blue == blue)).map
    (fun p => p.identifier)

/-- `TabletController._update_state` (manager.py lines 189-224): every
keyword argument defaults to `None` and is applied only when it `is not
None` — including `last_error`, so passing `last_error=None` leaves a
previously recorded error in place.  The listener invocation does not change
the state and is omitted. -/
def update_state (st : TabletState) (now : Nat)
    (available : Option Bool) (led_on : Option Bool)
    (red green blue : Option Nat) (power_on : Option Bool)
    (last_error : Option String) : TabletState :=
  let s1 := match available with | some v => { st with available := v } | none => st
  let s2 := match led_on with | some v => { s1 with led_on := v } | none => s1
  let s3 := match red with | some v => { s2 with red := v } | none => s2
  let s4 := match green with | some v => { s3 with green := v } | none => s3
  let s5 := match blue with | some v => { s4 with blue := v } | none => s4
  let s6 :=
    if red.isSome || green.isSome || blue.isSome || led_on.isSome then
      { s5 with preset :=
          if !s5.led_on then some "off" else match_rgb s5.red s5.green s5.blue }
    else s5
  let s7 := match power_on with | some v => { s6 with power_on := some v } | none => s6
  let s8 := match last_error with | some v => { s7 with last_error := some v } | none => s7
  { s8 with last_updated := some now }

/-- `TabletController._handle_failure` (lines 226-231). -/
def handle_failure (st : TabletState) (now : Nat) (msg : String) : TabletState :=
  update_state st now (some false) none none none none none (some msg)

/-- `TabletController.set_light` (lines 90-146): runs `set_led` then
`get_led_status`, verifies the confirmation, and — because the whole body
sits in `try ... except Exception: self._handle_failure(exc)` — NEVER raises
to its caller: every failure, the verification mismatch included, is
converted into a state update and `self._state` is returned.  The
`SICPError("LED verification failed: ...")` message is abbreviated to its
static prefix. -/
def set_light (st : TabletState) (now : Nat) (setSend confirmSend : NetResult)
    (is_on : Bool) (red green blue : Nat) : TabletState :=
  match client_set_led setSend is_on red green blue with
  | .error e => handle_failure st now (err_str e)
  | .ok status =>
    match client_get_led_status confirmSend with
    | .error e => handle_failure st now (err_str e)
    | .ok confirmed =>
      let mismatch :=
        if is_on then
          confirmed.is_on != is_on || confirmed.red != status.red
            || confirmed.green != status.green || confirmed.blue != status.blue
        else confirmed.is_on
      if mismatch then handle_failure st now "LED verification failed"
      else
        update_state st now (some true) (some confirmed.is_on) (some confirmed.red)
          (some confirmed.green) (some confirmed.blue) none none

/-- `TabletController._refresh_state_locked` (lines 169-187). -/
def refresh_state_locked (st : TabletState) (now : Nat) (getSend : NetResult) :
    TabletState :=
  match client_get_led_status getSend with
  | .ok led =>
      update_state st now (some true) (some led.is_on) (some led.red)
        (some led.green) (some led.blue) none none
  | .error e => handle_failure st now (err_str e)

end Service

namespace SrcProtocol
/-! Embedding of `src/sicp/protocol.py`. -/

def FRAME_SIZE : Nat := 0x09
def CONTROL_BYTE : Nat := 0x01
def GROUP_BYTE : Nat := 0x00
def CMD_SET : Nat := 0xF3
def CMD_GET : Nat := 0xF4
def CMD_POWER : Nat := 0x18

structure LedState where
  is_on : Bool
  red : Nat
  green : Nat
  blue : Nat
  deriving DecidableEq

structure PowerState where
  is_on : Bool
  deriving DecidableEq

structure TabletStatus where
  led : LedState
  power : PowerState
  deriving DecidableEq

def clamp_color (value : Nat) : Option Nat :=
  if value ≤ 255 then some value else none

/-- `build_set_frame` (lines 60-75), identical to the other two variants. -/
def build_set_frame (is_on : Bool) (red green blue : Nat) : Option (List Nat) :=
  match clamp_color (if is_on then red else 0),
        clamp_color (if is_on then green else 0),
        clamp_color (if is_on then blue else 0) with
  | some r, some g, some b =>
      let parts : List Nat :=
        [FRAME_SIZE, CONTROL_BYTE, GROUP_BYTE, CMD_SET,
         if is_on then 0x01 else 0x00, r, g, b]
      some (parts ++ [checksum parts])
  | _, _, _ => none

/-- `build_get_frame` (lines 78-90). -/
def build_get_frame : List Nat :=
  let parts : List Nat :=
    [FRAME_SIZE, CONTROL_BYTE, GROUP_BYTE, CMD_GET, 0x00, 0x00, 0x00, 0x00]
  parts ++ [checksum parts]

/-- `build_power_frame` (lines 93-102): group/control bytes are literal zeros
here, command `0x18`. -/
def build_power_frame (is_on : Bool) : List Nat :=
  let parts : List Nat := [0x06, 0x00, 0x00, CMD_POWER, if is_on then 0x02 else 0x01]
  parts ++ [checksum parts]

/-- `parse_get_reply` (lines 105-144): the strict parser of this variant —
it checks length, the length header, the command echo AND the checksum, then
reads the LED flag and colors; the power heuristic is
`led_on or any(v > 0 for v in (red, green, blue))`. -/
def parse_get_reply (frame : List Nat) : Except String TabletStatus :=
  if frame.length < 9 then .error "GET reply too short"
  else if frame.getD 0 0 ≠ frame.length then .error "GET reply length mismatch"
  else if frame.getD 3 0 ≠ CMD_GET then .error "Unexpected command echo in GET reply"
  else if frame.getLast? ≠ some (checksum frame.dropLast) then
    .error "Checksum mismatch in GET reply"
  else
    let led_on := frame.getD 4 0 != 0
    let red := frame.getD 5 0
    let green := frame.getD 6 0
    let blue := frame.getD 7 0
    let power_on := led_on || decide (0 < red) || decide (0 < green) || decide (0 < blue)
    .ok { led := { is_on := led_on, red := red, green := green, blue := blue },
          power := { is_on := power_on } }

end SrcProtocol

namespace SrcTablet
/-! Embedding of `src/sicp/client.py` and `src/sicp/tablet.py`. -/

inductive Err where
  | connectionError (msg : String)
  | protocolError (msg : String)
  deriving DecidableEq

/-- `SICPClient.get_status` (client.py lines 49-62): one GET exchange parsed
by `parse_get_reply`. -/
def client_get_status (getReply : NetResult) : Except Err SrcProtocol.TabletStatus :=
  match getReply with
  | .connFail m => .error (.connectionError m)
  | .ok reply =>
    match SrcProtocol.parse_get_reply reply with
    | .error m => .error (.protocolError m)
    | .ok status => .ok status

/-- `SICPClient.set_power` (client.py lines 64-82): fire the power frame
(reply bytes only logged), then `get_status`. -/
def client_set_power (powerSend getReply : NetResult) :
    Except Err SrcProtocol.TabletStatus :=
  match powerSend with
  | .connFail m => .error (.connectionError m)
  | .ok _ => client_get_status getReply

/-- `tablet.TabletState` (tablet.py lines 20-39), timestamps abstract. -/
structure TabletState where
  last_status : Option SrcProtocol.TabletStatus := none
  last_success : Option Nat := none
  last_error : Option String := none
  deriving DecidableEq

/-- `TabletController._update_status` (tablet.py lines 122-127): records the
status, stamps `last_success` and clears `last_error`; callbacks omitted. -/
def update_status (st : TabletState) (now : Nat)
    (status : SrcProtocol.TabletStatus) : TabletState :=
  { st with last_status := some status, last_success := some now, last_error := none }

/-- `TabletController.set_power` (tablet.py lines 93-105): on a power
confirmation mismatch it only calls `LOGGER.warning` (returned here as the
`Bool` component) and still records the status and returns it; errors from
the client propagate unchanged. -/
def set_power (st : TabletState) (now : Nat) (powerSend getReply : NetResult)
    (is_on : Bool) : Except Err (TabletState × SrcProtocol.TabletStatus × Bool) :=
  match client_set_power powerSend getReply with
  | .error e => .error e
  | .ok status =>
      let warned := status.power.is_on != is_on
      .ok (update_status st now status, status, warned)

end SrcTablet

/-- Abstract steps of a public controller operation, in source order:
entering / leaving the `async with self._lock` block, one complete network
exchange, and a mutation of the controller-owned state. -/
inductive OpAction where
  | acquire
  | network
  | mutate
  | release
  deriving DecidableEq

/-- An operation holds its device's exclusive section for its whole body:
the first step takes the lock and the last step gives it back (an
`async with` block releases on every exit path). -/
def locked_trace (t : List OpAction) : Bool :=
  t.head? == some OpAction.acquire && t.getLast? == some OpAction.release

namespace SrcTablet

/-- `TabletController.set_led` (tablet.py lines 64-91): `async with
self._lock`, then `client.set_led` (one SET exchange and one GET exchange),
the confirmation check (pure), `_update_status`. -/
def set_led_trace : List OpAction :=
  [.acquire, .network, .network, .mutate, .release]

/-- `TabletController.set_power` (tablet.py lines 93-105): `async with
self._lock`, then `client.set_power` (power exchange + GET exchange),
`_update_status`. -/
def set_power_trace : List OpAction :=
  [.acquire, .network, .network, .mutate, .release]

/-- `TabletController.refresh` (tablet.py lines 107-120): NO lock — it calls
`client.get_status` (one GET exchange) and then mutates the state
(`_update_status`, or `last_error` assignment in the `except` branch)
without ever touching `self._lock`. -/
def refresh_trace : List OpAction :=
  [.network, .mutate]

end SrcTablet

namespace ClientTablet
/-! Operation traces of `sicp_client/tablet.py`. -/

/-- `TabletController.refresh_state` (lines 71-95): under the lock it stamps
`last_queried`, does the LED GET exchange, mutates LED state, best-effort
power exchange, mutates power/success fields. -/
def refresh_state_trace : List OpAction :=
  [.acquire, .mutate, .network, .mutate, .network, .mutate, .release]

/-- `TabletController.set_led` (lines 97-117): under the lock, SET exchange,
GET confirmation exchange, state mutation. -/
def set_led_trace : List OpAction :=
  [.acquire, .network, .network, .mutate, .release]

/-- `TabletController.set_power` (lines 119-140): under the lock, power
exchange, best-effort status exchange, state mutation. -/
def set_power_trace : List OpAction :=
  [.acquire, .network, .network, .mutate, .release]

end ClientTablet

namespace Service

/-- `TabletController.refresh_state` (manager.py lines 86-88): `async with
self._lock: await self._refresh_state_locked()` — GET exchange then state
update. -/
def refresh_state_trace : List OpAction :=
  [.acquire, .network, .mutate, .release]

/-- `TabletController.set_light` (manager.py lines 90-146): under the lock,
`set_led` exchange, `get_led_status` exchange, state update. -/
def set_light_trace : List OpAction :=
  [.acquire, .network, .network, .mutate, .release]

/-- `TabletController.set_power` (manager.py lines 148-167): under the lock,
power exchange, state update. -/
def set_power_trace : List OpAction :=
  [.acquire, .network, .mutate, .release]

end Service

/-- The frame self-description invariant of the spec data model: the first
byte is the total length and the last byte is the XOR of all preceding
bytes. -/
def frame_ok (f : List Nat) : Bool :=
  (f.getD 0 0 == f.length) && (f.getLast? == some (checksum f.dropLast))

lemma frame_ok_build (a : Nat) (rest : List Nat) (h : a = rest.length + 2) :
    frame_ok ((a :: rest) ++ [checksum (a :: rest)]) = true := by
  rw [frame_ok, List.getLast?_concat, List.dropLast_concat]
  simp [h]

lemma srcprotocol_set_frame_ok (is_on : Bool) (red green blue : Nat)
    (f : List Nat) (h : SrcProtocol.build_set_frame is_on red green blue = some f) :
    frame_ok f = true := by
  unfold SrcProtocol.build_set_frame at h
  split at h
  · obtain rfl := Option.some.inj h
    exact frame_ok_build _ _ rfl
  · exact absurd h (by simp)

lemma service_set_frame_ok (is_on : Bool) (red green blue : Nat)
    (f : List Nat) (h : Service.build_set_frame is_on red green blue = some f) :
    frame_ok f = true := by
  unfold Service.build_set_frame at h
  split at h
  · obtain rfl := Option.some.inj h
    exact frame_ok_build _ _ rfl
  · exact absurd h (by simp)

lemma clientprotocol_set_frame_ok (is_on : Bool) (red green blue : Nat)
    (f : List Nat) (h : ClientProtocol.build_set_frame is_on red green blue = some f) :
    frame_ok f = true := by
  unfold ClientProtocol.build_set_frame at h
  split at h
  · obtain rfl := Option.some.inj h
    exact frame_ok_build _ _ rfl
  · exact absurd h (by simp)

/-- C7 counterexample: the SET frame actually built for
`(on=true, red=255, green=0, blue=0)` is NOT the spec byte string
`09 01 00 F3 01 FF 00 00 F6` — the XOR checksum of the first eight bytes is
`0x05`, not `0xF6`.  Both cited builders agree. -/
theorem C7_counterexample :
    SrcProtocol.build_set_frame true 255 0 0 ≠
      some [0x09, 0x01, 0x00, 0xF3, 0x01, 0xFF, 0x00, 0x00, 0xF6] ∧
    Service.build_set_frame true 255 0 0 ≠
      some [0x09, 0x01, 0x00, 0xF3, 0x01, 0xFF, 0x00, 0x00, 0xF6] := by
  decide

/-- C7 (amended): `build_set_frame(on=true, red=255, green=0, blue=0)`
equals `09 01 00 F3 01 FF 00 00 05` in all three variants. -/
theorem C7_set_frame_bytes :
    SrcProtocol.build_set_frame true 255 0 0 =
      some [0x09, 0x01, 0x00, 0xF3, 0x01, 0xFF, 0x00, 0x00, 0x05] ∧
    Service.build_set_frame true 255 0 0 =
      some [0x09, 0x01, 0x00, 0xF3, 0x01, 0xFF, 0x00, 0x00, 0x05] ∧
    ClientProtocol.build_set_frame true 255 0 0 =
      some [0x09, 0x01, 0x00, 0xF3, 0x01, 0xFF, 0x00, 0x00, 0x05] := by
  decide

/-- C8: every frame returned by a frame builder satisfies
`frame[0] == len(frame)` and `frame[-1] == XOR(frame[0..-1])`, across all
builders of all three variants (for `build_set_frame`, whenever it returns a
frame at all). -/
theorem C8_frame_invariants :
    (∀ is_on red green blue f,
        SrcProtocol.build_set_frame is_on red green blue = some f →
          frame_ok f = true) ∧
    frame_ok SrcProtocol.build_get_frame = true ∧
    (∀ is_on, frame_ok (SrcProtocol.build_power_frame is_on) = true) ∧
    (∀ is_on red green blue f,
        Service.build_set_frame is_on red green blue = some f →
          frame_ok f = true) ∧
    frame_ok Service.build_get_frame = true ∧
    (∀ is_on, frame_ok (Service.build_power_frame is_on) = true) ∧
    frame_ok Service.build_power_query_frame = true ∧
    (∀ is_on red green blue f,
        ClientProtocol.build_set_frame is_on red green blue = some f →
          frame_ok f = true) ∧
    frame_ok ClientProtocol.build_get_frame = true ∧
    (∀ is_on, frame_ok (ClientProtocol.build_power_frame is_on) = true) ∧
    frame_ok ClientProtocol.build_power_status_frame = true := by
  refine ⟨srcprotocol_set_frame_ok, by decide, ?_, service_set_frame_ok, by decide,
    ?_, by decide, clientprotocol_set_frame_ok, by decide, ?_, by decide⟩ <;>
    intro is_on <;> cases is_on <;> decide

/-- C8 witness: the invariant instantiated at the concrete SET frame built
for `(on=true, red=255, green=0, blue=0)`. -/
theorem C8_frame_invariants_witness :
    frame_ok [0x09, 0x01, 0x00, 0xF3, 0x01, 0xFF, 0x00, 0x00, 0x05] = true :=
  C8_frame_invariants.1 true 255 0 0
    [0x09, 0x01, 0x00, 0xF3, 0x01, 0xFF, 0x00, 0x00, 0x05] (by decide)

/-- C4 counterexample: `parse_led_status` of `sicp_service/sicp.py` accepts
a reply whose on-flag is set while all three color bytes are zero and still
reports `on=true` — it has no color guard, contradicting the claim that such
a reply parses to `on=false`. -/
theorem C4_counterexample :
    Service.parse_led_status [0x09, 0x01, 0x00, 0xF4, 0x01, 0x00, 0x00, 0x00, 0x05] =
      .ok { is_on := true, red := 0, green := 0, blue := 0 } := by
  decide

/-- C4 (amended): the color guard exists only in the `sicp_client` variant.
For any accepted reply, `_parse_led_state` (sicp_client) reports
`on = flag AND (some color non-zero)`, while `parse_led_status`
(sicp_service) reports `on = (flag byte == 1)` alone, colors ignored. -/
theorem C4_led_on_guard (f : List Nat) (hlen : 8 ≤ f.length) :
    (f.getD 3 0 = 0xF4 →
      ClientProtocol.parse_led_state f =
        .ok { is_on := (f.getD 4 0 == 0x01) &&
                (f.getD 5 0 != 0 || f.getD 6 0 != 0 || f.getD 7 0 != 0),
              red := f.getD 5 0, green := f.getD 6 0, blue := f.getD 7 0 }) ∧
    (f.getD 3 0 = 0xF3 ∨ f.getD 3 0 = 0xF4 →
      Service.parse_led_status f =
        .ok { is_on := f.getD 4 0 == 0x01, red := f.getD 5 0,
              green := f.getD 6 0, blue := f.getD 7 0 }) := by
  constructor
  · intro h
    unfold ClientProtocol.parse_led_state
    rw [if_neg (by omega), if_neg (by rw [h]; decide)]
  · intro h
    unfold Service.parse_led_status
    rw [if_neg (by omega)]
    rcases h with h | h <;> rw [if_neg (by rw [h]; decide)]

/-- C4 amended witness: a concrete accepted reply with the flag set and a
non-zero red byte. -/
theorem C4_led_on_guard_witness :
    ClientProtocol.parse_led_state [0x09, 0x01, 0x00, 0xF4, 0x01, 0x05, 0x00, 0x00, 0x63] =
      .ok { is_on := true, red := 5, green := 0, blue := 0 } :=
  (C4_led_on_guard [0x09, 0x01, 0x00, 0xF4, 0x01, 0x05, 0x00, 0x00, 0x63]
    (by decide)).1 rfl

/-- C10: neither LED reply parser ever inspects the trailing checksum byte:
for any frame of length at least 8 with an acceptable command echo — written
here as its first eight bytes followed by an arbitrary tail, so the final
byte is unconstrained and may violate the XOR property — parsing succeeds
and the result is computed from indices 4-7 only. -/
theorem C10_checksum_never_inspected (b0 b1 b2 b4 b5 b6 b7 : Nat) (tail : List Nat) :
    ClientProtocol.parse_led_state ([b0, b1, b2, 0xF4, b4, b5, b6, b7] ++ tail) =
      .ok { is_on := (b4 == 0x01) && (b5 != 0 || b6 != 0 || b7 != 0),
            red := b5, green := b6, blue := b7 } ∧
    (∀ b3, b3 = 0xF3 ∨ b3 = 0xF4 →
      Service.parse_led_status ([b0, b1, b2, b3, b4, b5, b6, b7] ++ tail) =
        .ok { is_on := b4 == 0x01, red := b5, green := b6, blue := b7 }) := by
  constructor
  · unfold ClientProtocol.parse_led_state
    rw [if_neg (by simp only [List.length_append, List.length_cons, List.length_nil]; omega)]
    rw [if_neg (by exact fun hc => hc rfl)]
    rfl
  · intro b3 h
    unfold Service.parse_led_status
    rw [if_neg (by simp only [List.length_append, List.length_cons, List.length_nil]; omega)]
    rcases h with h | h <;> subst h <;> rw [if_neg (by exact fun hc => nomatch hc)] <;> rfl

/-- C10 witness: an accepted reply whose trailing byte `0x63` is NOT the XOR
of the preceding bytes is still parsed, with the values taken from indices
4-7. -/
theorem C10_checksum_never_inspected_witness :
    Service.parse_led_status [0x09, 0x01, 0x00, 0xF3, 0x01, 0x07, 0x00, 0x00, 0x63] =
      .ok { is_on := true, red := 7, green := 0, blue := 0 } :=
  (C10_checksum_never_inspected 0x09 0x01 0x00 0x01 0x07 0x00 0x00 [0x63]).2
    0xF3 (Or.inl rfl)

/-- C1 counterexample: run `TabletController.set_light` (sicp_service) from
the initial state on the spec scenario — requested `(on=true, red=10)`, the
post-command GET confirming `red=20`.  The call returns normally (its `except
Exception` swallows the internal verification error, so nothing is raised to
the caller) and the recorded state has `available=false`, `last_error` set to
the verification message, and the PREVIOUS LED values (red stays 0, neither
the requested 10 nor the confirmed 20). -/
theorem C1_counterexample :
    Service.set_light {} 0 (.ok [])
        (.ok [0x09, 0x01, 0x00, 0xF4, 0x01, 20, 0x00, 0x00, 0xE9]) true 10 0 0 =
      { available := false, led_on := false, red := 0, green := 0, blue := 0,
        preset := none, power_on := none,
        last_error := some "LED verification failed", last_updated := some 0 } := by
  decide

/-- C1 (amended): on an LED confirmation mismatch the two cited layers do
different things, neither matching the claim: `set_led_state`
(sicp_client/protocol.py) raises `ProtocolError("LED confirmation
mismatch")` and records nothing, while `set_light` (sicp_service/manager.py)
catches its own verification error and ends in `_handle_failure` — state
marked unavailable with `last_error` set, previous LED values kept. -/
theorem C1_led_mismatch_behavior (r' : Nat) (st : Service.TabletState) (now : Nat)
    (hne : r' ≠ 10) :
    ClientProtocol.set_led_state (.ok [])
        (.ok [0x09, 0x01, 0x00, 0xF4, 0x01, r', 0x00, 0x00, 0x00]) true 10 0 0 =
      .error (.protocolError "LED confirmation mismatch") ∧
    Service.set_light st now (.ok [])
        (.ok [0x09, 0x01, 0x00, 0xF4, 0x01, r', 0x00, 0x00, 0x00]) true 10 0 0 =
      Service.handle_failure st now "LED verification failed" := by
  constructor
  · rcases eq_or_ne r' 0 with rfl | hz
    · decide
    · simp [ClientProtocol.set_led_state, ClientProtocol.build_set_frame,
        ClientProtocol.clamp_color, ClientProtocol.query_led_state,
        ClientProtocol.parse_led_state, ClientProtocol.CMD_GET, hne, hz]
  · simp [Service.set_light, Service.client_set_led, Service.build_set_frame,
      Service.clamp_color, Service.client_get_led_status, Service.parse_led_status,
      Service.CMD_SET, Service.CMD_GET, hne]

/-- C1 amended witness: the spec scenario itself, requested red 10 and
confirmed red 20, from the initial state. -/
theorem C1_led_mismatch_behavior_witness :
    ClientProtocol.set_led_state (.ok [])
        (.ok [0x09, 0x01, 0x00, 0xF4, 0x01, 20, 0x00, 0x00, 0x00]) true 10 0 0 =
      .error (.protocolError "LED confirmation mismatch") ∧
    Service.set_light {} 0 (.ok [])
        (.ok [0x09, 0x01, 0x00, 0xF4, 0x01, 20, 0x00, 0x00, 0x00]) true 10 0 0 =
      Service.handle_failure {} 0 "LED verification failed" :=
  C1_led_mismatch_behavior 20 {} 0 (by decide)

/-- C2 counterexample: `set_power_state` (sicp_client/protocol.py) DOES
raise on a power confirmation mismatch: requesting `on=true` while the
query-back reports the off sentinel `0x01` yields
`ProtocolError("Power confirmation mismatch")`, not a logged warning. -/
theorem C2_counterexample :
    ClientProtocol.set_power_state (.ok [])
        (.ok [0x06, 0x00, 0x00, 0x19, 0x01, 0x1E]) true =
      .error (.protocolError "Power confirmation mismatch") := by
  decide

/-- C2 (amended): the warn-only behavior is the `src/sicp` variant.  For any
acknowledged power command whose parsed query-back disagrees with the
request, `TabletController.set_power` (src/sicp/tablet.py) completes
successfully: it returns the confirmed status, fires only the warning (the
`true` flag), and records the status with `last_error` cleared. -/
theorem C2_power_mismatch_behavior (st : SrcTablet.TabletState) (now : Nat)
    (ack reply : List Nat) (status : SrcProtocol.TabletStatus) (is_on : Bool)
    (hparse : SrcProtocol.parse_get_reply reply = .ok status)
    (hmis : status.power.is_on ≠ is_on) :
    SrcTablet.set_power st now (.ok ack) (.ok reply) is_on =
      .ok (SrcTablet.update_status st now status, status, true) := by
  simp only [SrcTablet.set_power, SrcTablet.client_set_power,
    SrcTablet.client_get_status, hparse]
  simp [hmis]

/-- C2 amended witness: a checksum-valid GET reply reporting power on while
`set_power(on=false)` was requested — the call still succeeds and only
warns. -/
theorem C2_power_mismatch_behavior_witness :
    SrcTablet.set_power {} 0 (.ok [])
        (.ok [0x09, 0x01, 0x00, 0xF4, 0x01, 0x00, 0x00, 0x00, 0xFD]) false =
      .ok (SrcTablet.update_status {} 0 ⟨⟨true, 0, 0, 0⟩, ⟨true⟩⟩,
        ⟨⟨true, 0, 0, 0⟩, ⟨true⟩⟩, true) :=
  C2_power_mismatch_behavior {} 0 [] [0x09, 0x01, 0x00, 0xF4, 0x01, 0x00, 0x00, 0x00, 0xFD]
    ⟨⟨true, 0, 0, 0⟩, ⟨true⟩⟩ false (by decide) (by decide)

/-- C6: the claim is right and `sicp_service/manager.py` is wrong.  Its
`_update_state` applies a keyword only when it `is not None`, so the
`last_error=None` passed explicitly by every success path never clears a
previously recorded error: after a failed refresh (`last_error="boom"`)
followed by a successful one, the state is `available=true` with
`last_error` still `"boom"` — violating "successful exchanges clear the
error" (the sibling variants clear it; this one cannot). -/
theorem C6_stale_last_error_bug :
    Service.refresh_state_locked (Service.handle_failure {} 0 "boom") 1
        (.ok [0x09, 0x01, 0x00, 0xF4, 0x01, 0xFF, 0x00, 0x00, 0x13]) =
      { available := true, led_on := true, red := 255, green := 0, blue := 0,
        preset := some "red", power_on := none, last_error := some "boom",
        last_updated := some 1 } := by
  decide

/-- C9 counterexample: `TabletController.refresh` in `src/sicp/tablet.py`
performs its network exchange and state mutation without ever acquiring the
per-device lock — its trace neither starts with an acquire nor ends with a
release, yet contains network I/O. -/
theorem C9_counterexample :
    locked_trace SrcTablet.refresh_trace = false ∧
    OpAction.network ∈ SrcTablet.refresh_trace := by
  decide

/-- C9 (amended): `set_led` and `set_power` of all three variants, and the
refresh of the `sicp_client` and `sicp_service` variants, hold the device's
exclusive section around all network I/O and state mutation; the exception
is `refresh` in `src/sicp/tablet.py`, which runs entirely outside the
lock. -/
theorem C9_exclusive_sections :
    locked_trace SrcTablet.set_led_trace = true ∧
    locked_trace SrcTablet.set_power_trace = true ∧
    locked_trace ClientTablet.refresh_state_trace = true ∧
    locked_trace ClientTablet.set_led_trace = true ∧
    locked_trace ClientTablet.set_power_trace = true ∧
    locked_trace Service.refresh_state_trace = true ∧
    locked_trace Service.set_light_trace = true ∧
    locked_trace Service.set_power_trace = true ∧
    locked_trace SrcTablet.refresh_trace = false := by
  decide

lemma client_run_conn (msgs : Nat → String) (delay : ℚ) (hd : 0 < delay)
    (attempts : Nat) :
    ∀ (rem attempt : Nat) (last : Option String) (made sleeps : Nat),
      1 ≤ rem → attempt + rem = attempts + 1 →
      ClientProtocol.run_from (fun i => .connError (msgs i)) delay attempts
          rem attempt last made sleeps =
        ⟨.error (.connectionError (msgs attempts)), made + rem, sleeps + (rem - 1)⟩ := by
  intro rem
  induction rem with
  | zero => intro attempt last made sleeps h1 _; exact absurd h1 (by omega)
  | succ r ih =>
    intro attempt last made sleeps _ h2
    simp only [ClientProtocol.run_from]
    by_cases hceq : attempt = attempts
    · have hr : r = 0 := by omega
      subst hr hceq
      rw [if_pos (by simp)]
      simp
    · rw [if_neg (by simp [hceq])]
      rw [if_pos hd]
      rw [ih (attempt + 1) (some (msgs attempt)) (made + 1) (sleeps + 1)
        (by omega) (by omega)]
      have h3 : made + 1 + r = made + (r + 1) := by omega
      have h4 : sleeps + 1 + (r - 1) = sleeps + (r + 1 - 1) := by omega
      rw [h3, h4]

lemma src_run_conn (msgs : Nat → String) (delay : ℚ) (hd : 0 < delay)
    (attempts : Nat) :
    ∀ (rem attempt made sleeps : Nat),
      1 ≤ rem → attempt + rem = attempts + 1 →
      SrcTransport.run_from (fun i => .connError (msgs i)) delay attempts
          rem attempt made sleeps =
        ⟨.error (.connectionError (msgs attempts)), made + rem, sleeps + (rem - 1)⟩ := by
  intro rem
  induction rem with
  | zero => intro attempt made sleeps h1 _; exact absurd h1 (by omega)
  | succ r ih =>
    intro attempt made sleeps _ h2
    simp only [SrcTransport.run_from]
    by_cases hceq : attempt = attempts
    · have hr : r = 0 := by omega
      subst hr hceq
      rw [if_pos (by simp)]
      simp
    · rw [if_neg (by simp [hceq])]
      rw [if_pos hd]
      rw [ih (attempt + 1) (made + 1) (sleeps + 1) (by omega) (by omega)]
      have h3 : made + 1 + r = made + (r + 1) := by omega
      have h4 : sleeps + 1 + (r - 1) = sleeps + (r + 1 - 1) := by omega
      rw [h3, h4]

/-- C3: for any `retries >= 0` and `retry_delay > 0`, in both cited
implementations of `send_with_retries`: (a) when every attempt raises
`ConnectionError`, exactly `retries + 1` attempts are made, exactly
`retries` sleeps of `retry_delay` are performed (never one after the final
attempt), and the `ConnectionError` of the LAST attempt is re-raised
unchanged; (b) an attempt failing with any error other than
`ConnectionError` is not retried: it propagates after exactly 1 attempt and
0 sleeps. -/
theorem C3_retry_semantics (retries : Nat) (retry_delay : ℚ)
    (hd : 0 < retry_delay) :
    (∀ msgs : Nat → String,
      ClientProtocol.send_with_retries (fun i => .connError (msgs i)) retries
          retry_delay =
        ⟨.error (.connectionError (msgs (retries + 1))), retries + 1, retries⟩ ∧
      SrcTransport.send_with_retries (fun i => .connError (msgs i)) retries
          retry_delay =
        ⟨.error (.connectionError (msgs (retries + 1))), retries + 1, retries⟩) ∧
    (∀ (outcome : Nat → AttemptResult) (m : String), outcome 1 = .otherError m →
      ClientProtocol.send_with_retries outcome retries retry_delay =
        ⟨.error (.otherError m), 1, 0⟩ ∧
      SrcTransport.send_with_retries outcome retries retry_delay =
        ⟨.error (.otherError m), 1, 0⟩) := by
  constructor
  · intro msgs
    constructor
    · simp only [ClientProtocol.send_with_retries]
      rw [Nat.max_eq_right (Nat.le_add_left 1 retries)]
      rw [client_run_conn msgs retry_delay hd (retries + 1) (retries + 1) 1 none 0 0
        (by omega) (by omega)]
      simp
    · simp only [SrcTransport.send_with_retries]
      rw [Nat.max_eq_right (Nat.le_add_left 1 retries)]
      rw [src_run_conn msgs retry_delay hd (retries + 1) (retries + 1) 1 0 0
        (by omega) (by omega)]
      simp
  · intro outcome m h
    constructor
    · simp only [ClientProtocol.send_with_retries]
      rw [Nat.max_eq_right (Nat.le_add_left 1 retries)]
      simp only [ClientProtocol.run_from, h]
    · simp only [SrcTransport.send_with_retries]
      rw [Nat.max_eq_right (Nat.le_add_left 1 retries)]
      simp only [SrcTransport.run_from, h]

/-- C3 witness: `retries = 2`, a transport that always raises — exactly 3
attempts, 2 sleeps, the last error re-raised. -/
theorem C3_retry_semantics_witness :
    ClientProtocol.send_with_retries (fun _ => .connError "boom") 2 1 =
      ⟨.error (.connectionError "boom"), 3, 2⟩ :=
  ((C3_retry_semantics 2 1 (by norm_num)).1 (fun _ => "boom")).1

lemma client_read_loop_short (expected : Nat) (ending : RecvEvent)
    (hend : ending = .timeout ∨ ending = .data []) :
    ∀ (chunks : List (List Nat)) (received : List Nat),
      (∀ c ∈ chunks, c ≠ []) →
      (received ++ chunks.flatten).length < expected →
      ClientProtocol.read_loop expected received
          (chunks.map RecvEvent.data ++ [ending]) =
        received ++ chunks.flatten := by
  intro chunks
  induction chunks with
  | nil =>
    intro received _ hshort
    have hlen : received.length < expected := by simpa using hshort
    rcases hend with rfl | rfl <;> simp [ClientProtocol.read_loop, hlen]
  | cons c cs ih =>
    intro received hne hshort
    obtain ⟨b, bs, rfl⟩ : ∃ b bs, c = b :: bs := by
      cases c with
      | nil => exact absurd rfl (hne [] (by simp))
      | cons b bs => exact ⟨b, bs, rfl⟩
    have hlen : received.length < expected := by
      simp only [List.length_append] at hshort ⊢
      omega
    rw [List.map_cons, List.cons_append]
    simp only [ClientProtocol.read_loop]
    rw [if_pos hlen]
    rw [ih (received ++ b :: bs) (fun d hd => hne d (by simp [hd]))
      (by simpa [List.append_assoc] using hshort)]
    simp [List.append_assoc]

lemma src_read_loop_eq (expected : Nat) :
    ∀ (evs : List RecvEvent) (received : List Nat),
      SrcTransport.read_loop expected received evs =
        ClientProtocol.read_loop expected received evs := by
  intro evs
  induction evs with
  | nil => intro received; rfl
  | cons ev rest ih =>
    intro received
    cases ev with
    | timeout => simp [SrcTransport.read_loop, ClientProtocol.read_loop]
    | data bs =>
      cases bs with
      | nil => simp [SrcTransport.read_loop, ClientProtocol.read_loop]
      | cons b bs => simp [SrcTransport.read_loop, ClientProtocol.read_loop, ih]

/-- C5 counterexample: the `sicp_service` transport does NOT return a short
reply as-is.  With a declared length of 9, after one partial chunk the peer
closes; `SICPClient._receive_reply` raises `SICPError` instead of returning
the collected bytes (and a read timeout likewise propagates as an error). -/
theorem C5_counterexample :
    Service.receive_reply [9] [.data [1, 0], .data []] =
      .error "Socket closed before full reply was received" := by
  decide

/-- C5 (amended): the `sicp_client/protocol.py` and `src/sicp/transport.py`
reply loops behave as claimed — when the collected bytes still fall short of
the declared length and the trace ends with a timeout or a peer close, both
return exactly the bytes collected so far, with no error channel at all
(the loops are total functions into the reply bytes). -/
theorem C5_short_read_returned (expected : Nat) (received : List Nat)
    (chunks : List (List Nat)) (ending : RecvEvent)
    (hne : ∀ c ∈ chunks, c ≠ []) (hend : ending = .timeout ∨ ending = .data [])
    (hshort : (received ++ chunks.flatten).length < expected) :
    ClientProtocol.read_loop expected received
        (chunks.map RecvEvent.data ++ [ending]) =
      received ++ chunks.flatten ∧
    SrcTransport.read_loop expected received
        (chunks.map RecvEvent.data ++ [ending]) =
      received ++ chunks.flatten := by
  have h := client_read_loop_short expected ending hend chunks received hne hshort
  exact ⟨h, (src_read_loop_eq expected _ received).trans h⟩

/-- C5 amended witness: declared length 9, one partial chunk, then a
timeout — both loops return the three collected bytes. -/
theorem C5_short_read_returned_witness :
    ClientProtocol.read_loop 9 [9] [.data [1, 0], .timeout] = [9, 1, 0] ∧
    SrcTransport.read_loop 9 [9] [.data [1, 0], .timeout] = [9, 1, 0] :=
  C5_short_read_returned 9 [9] [[1, 0]] .timeout (by decide) (Or.inl rfl)
    (by decide)
